import Mathlib

/-!
Verification of `callbacks/neptune_callback.py` (class `NeptuneCallback`).

The Python file is a training-loop observer.  We embed its pure decision
logic shallowly:

* floats become exact rationals `ℚ`; `np.mean` is sum/length and `np.std`
  is the square root of the population variance, so aggregation results
  store the exact variance and the standard deviation is derived as
  `Real.sqrt` of it;
* `-np.inf` (the initial `best_mean_reward`) is modelled by the type
  `FloatVal` with a distinguished `negInf` below every finite value;
* the filesystem seen by `_load_logs` (`os.listdir` + `os.path.isfile` +
  csv parsing) is a list of `DirEntry`, each carrying the file name, the
  `isfile` answer, and the data rows produced by `csv.DictReader`
  (the reader consumes the header line, so `rows` are the data rows);
* side effects (`neptune.log_metric`, `neptune.log_text`, video capture,
  `model.save`, `os.mkdir`) become events accumulated in a list, in the
  order the Python code performs them;
* the external collaborators (`evaluate_policy`) are oracles: `_on_step`
  receives the per-episode reward and length arrays as inputs;
* Python exceptions around the best-effort upload in `_init_callback`
  become an explicit `Option`/branching structure: `functools.reduce`
  with no initialiser raises on an empty list, hence `reduceJoin`
  returns `none` there, and a failing `neptune.log_text` call is an
  oracle boolean `upload_fails`.
-/

/-- One data row of a monitor csv file: columns `r` (return) and `l`
(episode length), both parsed with `float(...)`. -/
structure CsvRow where
  r : ℚ
  l : ℚ
deriving DecidableEq, Repr

/-- One entry of `os.listdir(log_dir)`: its name, whether
`os.path.isfile` holds for it, and the data rows `csv.DictReader`
yields (the header line is already consumed by the reader). -/
structure DirEntry where
  name : String
  isFile : Bool
  rows : List CsvRow
deriving DecidableEq, Repr

/-- `np.mean`: arithmetic mean.  (`mean [] = 0/0 = 0` in `ℚ`; the code
never takes the mean of an empty array because of its emptiness guard.) -/
def mean (xs : List ℚ) : ℚ := xs.sum / (xs.length : ℚ)

/-- The population variance: `np.std xs` is `Real.sqrt (popVar xs)`,
i.e. the square root of the mean of the squared deviations (divisor `N`,
not `N - 1`). -/
def popVar (xs : List ℚ) : ℚ := mean (xs.map fun x => (x - mean xs) ^ 2)

/-- `np.std` itself: square root of the population variance. -/
noncomputable def npStd (xs : List ℚ) : ℝ := Real.sqrt (popVar xs)

/-- The test `file_or_dir[-4:] == ".csv"` (line 80): Python
slicing of a string `s` from index `-4` is `drop (length - 4)` of its
characters (the whole string when it is shorter than 4, exactly as the
truncated subtraction gives).  The test runs on
`os.path.join(log_dir, name)`; since the join ends with `"/" ++ name`,
its last four characters equal those of `name` whenever `name` has at
least four, and for shorter names both checks are false (the slash can
never occur in `".csv"`), so the check only depends on the entry name. -/
def csvSuffixCheck (name : String) : Bool :=
  decide (name.data.drop (name.data.length - 4) = ['.', 'c', 's', 'v'])

/-- The contribution of one directory entry to the accumulators of
`_load_logs` (lines 78-92): the `isfile` test and `.csv` suffix test,
then `rows = list(reader)[1:]`, the `continue` on an empty remainder,
`lasts = min(4, len(rows))` and `rows = rows[-lasts:]`. -/
def entryContribution (e : DirEntry) : List CsvRow :=
  if e.isFile && csvSuffixCheck e.name then
    let rows := e.rows.drop 1
    if rows.length = 0 then []
    else
      let lasts := min 4 rows.length
      rows.drop (rows.length - lasts)
  else []

/-- The accumulator `last_rewards` after the loop of `_load_logs`:
the `r` column of every contributed row, across all entries in listing
order. -/
def lastRewards (entries : List DirEntry) : List ℚ :=
  ((entries.map entryContribution).flatten).map CsvRow.r

/-- The accumulator `last_ep_lengths` after the loop of `_load_logs`. -/
def lastEpLengths (entries : List DirEntry) : List ℚ :=
  ((entries.map entryContribution).flatten).map CsvRow.l

/-- The result of `_load_logs` when it returns data.  `np.std` of the
reward (resp. length) array is `Real.sqrt var_reward`
(resp. `Real.sqrt var_length`); the exact variance is stored. -/
structure LogStats where
  mean_reward : ℚ
  var_reward : ℚ
  mean_length : ℚ
  var_length : ℚ
deriving DecidableEq, Repr

/-- The `std_reward` component returned by `_load_logs`. -/
noncomputable def LogStats.std_reward (s : LogStats) : ℝ := Real.sqrt s.var_reward

/-- The `std_ep_lengths` component returned by `_load_logs`. -/
noncomputable def LogStats.std_length (s : LogStats) : ℝ := Real.sqrt s.var_length

/-- `NeptuneCallback._load_logs` (lines 74-100): accumulate the pooled
pairs, return `None` (here `none`) when `len(last_rewards) == 0`,
otherwise the four summary values. -/
def loadLogs (entries : List DirEntry) : Option LogStats :=
  let last_rewards := lastRewards entries
  let last_ep_lengths := lastEpLengths entries
  if last_rewards.length = 0 then none
  else some ⟨mean last_rewards, popVar last_rewards,
             mean last_ep_lengths, popVar last_ep_lengths⟩

/-- A Python float that may be `-np.inf`: the initial value of
`best_mean_reward` (line 36). -/
inductive FloatVal where
  | negInf : FloatVal
  | fin : ℚ → FloatVal
deriving DecidableEq, Repr

/-- The comparison `mean_reward > self.best_mean_reward` (line 162):
`b.lt a` is `a > b` in the Python source; every finite float exceeds
`-np.inf`. -/
def FloatVal.lt : FloatVal → FloatVal → Bool
  | .negInf, .negInf => false
  | .negInf, .fin _ => true
  | .fin _, .negInf => false
  | .fin a, .fin b => decide (a < b)

/-- `a ≤ b` on possibly-infinite floats (for the monotonicity claim). -/
def FloatVal.le : FloatVal → FloatVal → Bool
  | .negInf, _ => true
  | .fin _, .negInf => false
  | .fin a, .fin b => decide (a ≤ b)

/-- A value passed to `neptune.log_metric`: either logged as-is, or the
result of `np.std`, i.e. the square root of the recorded variance. -/
inductive MetricVal where
  | exact (x : ℚ)
  | sqrtOf (var : ℚ)
deriving DecidableEq, Repr

/-- An observable side effect of `_on_step`, in program order. -/
inductive Event where
  | logMetric (name : String) (value : MetricVal)
  | video
  | saveModel (path : String)
deriving DecidableEq, Repr

/-- The monitor state read and written by `_on_step`: the step counter
`n_calls` maintained by the base class, the two frequencies, the log
directory, the running best reward and the video flag. -/
structure MonitorState where
  n_calls : ℕ
  logs_freq : ℕ
  evaluate_freq : ℕ
  log_dir : String
  best_mean_reward : FloatVal
  make_video : Bool
deriving DecidableEq, Repr

/-- What one call of `_on_step` produces: the emitted events in order,
the updated `best_mean_reward`, and the boolean the hook returns. -/
structure StepResult where
  events : List Event
  best_mean_reward : FloatVal
  res : Bool
deriving DecidableEq, Repr

/-- The four `neptune.log_metric` calls of lines 147-150, emitted after
a successful `_load_logs`. -/
def trainingMetricEvents (s : LogStats) : List Event :=
  [.logMetric "mean reward from training" (.exact s.mean_reward),
   .logMetric "std reward from training" (.sqrtOf s.var_reward),
   .logMetric "mean length from training" (.exact s.mean_length),
   .logMetric "std length from training" (.sqrtOf s.var_length)]

/-- `NeptuneCallback._on_step` (lines 139-166).  The per-episode reward
and length arrays that `evaluate_policy` would return are oracle inputs
`episode_rewards`, `episode_lengths`; `_evaluate` (lines 124-137) turns
them into mean and `np.std` exactly as `mean`/`popVar` do.  Note the
early `return True` on `logs is None` (line 143): it leaves the hook
before the evaluation block. -/
def onStep (st : MonitorState) (entries : List DirEntry)
    (episode_rewards episode_lengths : List ℚ) : StepResult :=
  let logEvents : Option (List Event) :=
    if st.n_calls % st.logs_freq = 0 then
      match loadLogs entries with
      | none => none
      | some s => some (trainingMetricEvents s)
    else some []
  match logEvents with
  | none => ⟨[], st.best_mean_reward, true⟩
  | some evs =>
    if st.n_calls % st.evaluate_freq = 0 then
      let mean_reward := mean episode_rewards
      let var_reward := popVar episode_rewards
      let mean_ep_length := mean episode_lengths
      let var_ep_length := popVar episode_lengths
      let evalEvents : List Event :=
        (if st.make_video then [.video] else []) ++
        [.logMetric "mean reward from evaluate" (.exact mean_reward),
         .logMetric "std_reward from evaluate" (.sqrtOf var_reward),
         .logMetric "mean episode length from evaluate" (.exact mean_ep_length),
         .logMetric "std episode length from evaluate" (.sqrtOf var_ep_length)]
      if FloatVal.lt st.best_mean_reward (.fin mean_reward) then
        ⟨evs ++ evalEvents ++ [.saveModel (st.log_dir ++ "/best_model.plk")],
         .fin mean_reward, true⟩
      else
        ⟨evs ++ evalEvents, st.best_mean_reward, true⟩
    else ⟨evs, st.best_mean_reward, true⟩

/-- The state built by `NeptuneCallback.__init__` as far as `_on_step`
reads it: `n_calls` starts at 0 (base class) and `best_mean_reward` is
`-np.inf` (line 36). -/
def mkMonitorState (logs_freq evaluate_freq : ℕ) (log_dir : String)
    (make_video : Bool) : MonitorState :=
  { n_calls := 0
    logs_freq := logs_freq
    evaluate_freq := evaluate_freq
    log_dir := log_dir
    best_mean_reward := .negInf
    make_video := make_video }

/-- The `__init__` normalisation of `model_parameter` (lines 45-48):
`None` becomes the empty dict. -/
def normalizeModelParameter (mp : Option (List (String × String))) :
    List (String × String) :=
  match mp with
  | none => []
  | some ps => ps

/-- An observable side effect of `_init_callback`, in program order. -/
inductive InitAction where
  | initSession (path : String)
  | createExperiment (name : String)
  | appendTags (tags : List String)
  | logText (name text : String)
  | mkdirLogDir
deriving DecidableEq, Repr

/-- The configuration `_init_callback` reads from the constructed
object.  `model_parameter` is the dict after the `__init__`
normalisation; `log_dir_exists` is the oracle answer of
`os.path.exists(self.log_dir)`. -/
structure InitConfig where
  neptune_account_name : String
  project_name : String
  experiment_name : String
  model_class_name : String
  environment_name : String
  random_seed : Option Int
  model_parameter : List (String × String)
  comment : Option String
  log_dir : String
  log_dir_exists : Bool
deriving DecidableEq, Repr

/-- `functools.reduce(lambda x, y: x + y + "\n", items)`: no initial
value, so an empty `items` raises `TypeError` (modelled as `none`);
otherwise the head seeds the fold. -/
def reduceJoin : List String → Option String
  | [] => none
  | x :: xs => some (xs.foldl (fun a y => a ++ y ++ "\n") x)

/-- The list comprehension building one line per hyperparameter
(an f-string rendering of key and value, line 64). -/
def paramItems (ps : List (String × String)) : List String :=
  ps.map fun kv => kv.1 ++ ": " ++ kv.2

/-- The tag list of lines 57-60: the seed tag is appended only when a
seed was supplied. -/
def sessionTags (cfg : InitConfig) : List String :=
  match cfg.random_seed with
  | none => [cfg.model_class_name, cfg.environment_name]
  | some s => [cfg.model_class_name, cfg.environment_name, "seed: " ++ toString s]

/-- The first three actions of `_init_callback` (lines 55-60), before
the `try` block. -/
def initHeader (cfg : InitConfig) : List InitAction :=
  [.initSession (cfg.neptune_account_name ++ "/" ++ cfg.project_name),
   .createExperiment cfg.experiment_name,
   .appendTags (sessionTags cfg)]

/-- The effect of the `try` block of lines 62-66: the text is uploaded
only when `reduce` did not raise and the upload itself did not fail;
any exception is swallowed by the bare `except: pass`. -/
def modelParamsUpload (cfg : InitConfig) (upload_fails : Bool) : List InitAction :=
  match reduceJoin (paramItems cfg.model_parameter), upload_fails with
  | none, _ => []
  | some _, true => []
  | some t, false => [.logText "Model Params" t]

/-- The actions after the `try` block (lines 68-72): the log-dir text,
the optional comment, and the conditional directory creation. -/
def initTail (cfg : InitConfig) : List InitAction :=
  [.logText "Path to local files" cfg.log_dir] ++
  (match cfg.comment with
   | none => []
   | some c => [.logText "Comment" c]) ++
  (if cfg.log_dir_exists then [] else [.mkdirLogDir])

/-- `NeptuneCallback._init_callback` (lines 54-72) as the list of
actions it completes, given the oracle `upload_fails` for the outcome
of the `neptune.log_text("Model Params", ...)` call. -/
def initCallback (cfg : InitConfig) (upload_fails : Bool) : List InitAction :=
  initHeader cfg ++ modelParamsUpload cfg upload_fails ++ initTail cfg

/-!  Spec-side definitions, written from the words of the specification
(sections 4.1.a and 8.3), to be compared with the embedded `_load_logs`:
"drop row 0 of each file, then take the trailing window of up to 4 from
what remains, per file, then pool across files", then "arithmetic mean
and population standard deviation over the pooled returns, and
separately over the pooled lengths".  -/

/-- Spec side: the trailing window of up to `k` rows, as the reversed
prefix of the reversal. -/
def trailingWindow (k : ℕ) (xs : List CsvRow) : List CsvRow :=
  ((xs.reverse).take k).reverse

/-- Spec side: what one matching file contributes — drop its first data
row, then keep the trailing window of up to 4 of the remainder. -/
def specFileWindow (rows : List CsvRow) : List CsvRow :=
  trailingWindow 4 (rows.drop 1)

/-- Spec side: the recognised files of the directory — the regular
files whose name ends in the `.csv` extension, expressed with the
list-suffix relation. -/
def specMatchingFiles (entries : List DirEntry) : List DirEntry :=
  entries.filter fun e => e.isFile && decide (".csv".data <:+ e.name.data)

/-- Spec side: the pooled rows across all matching files. -/
def specPooled (entries : List DirEntry) : List CsvRow :=
  ((specMatchingFiles entries).map fun e => specFileWindow e.rows).flatten

/-- Spec side: the arithmetic mean. -/
def specMean (xs : List ℚ) : ℚ := xs.sum / (xs.length : ℚ)

/-- Spec side: the population variance, divisor `N`; the population
standard deviation of the spec is its square root. -/
def specVariance (xs : List ℚ) : ℚ :=
  (xs.map fun x => (x - specMean xs) ^ 2).sum / (xs.length : ℚ)

/-- Spec side: the population standard deviation. -/
noncomputable def specStd (xs : List ℚ) : ℝ := Real.sqrt (specVariance xs)

/-- Recogniser of the checkpoint write `model.save(...)` (line 164)
among the events of a step. -/
def Event.isSaveModel : Event → Bool
  | .saveModel _ => true
  | _ => false

/-- Recogniser of the four training metrics of lines 147-150 among the
events of a step. -/
def Event.isTrainingMetric : Event → Bool
  | .logMetric n _ =>
      n == "mean reward from training" || n == "std reward from training" ||
      n == "mean length from training" || n == "std length from training"
  | _ => false

/-!  Helper lemmas.  -/

/-- The Python slice test of line 80 recognises exactly the names whose
character list has `".csv"` as a suffix. -/
lemma csvSuffixCheck_eq_suffix_decide (name : String) :
    csvSuffixCheck name = decide (".csv".data <:+ name.data) := by
  have hd : ".csv".data = ['.', 'c', 's', 'v'] := rfl
  have hl : (['.', 'c', 's', 'v'] : List Char).length = 4 := rfl
  rw [csvSuffixCheck, decide_eq_decide, hd, List.suffix_iff_eq_drop, hl]
  exact eq_comm

lemma mean_singleton (a : ℚ) : mean [a] = a := by
  simp [mean]

lemma popVar_singleton (a : ℚ) : popVar [a] = 0 := by
  simp [popVar, mean]

lemma mean_append_comm (a b : List ℚ) : mean (a ++ b) = mean (b ++ a) := by
  simp [mean, List.sum_append, List.length_append, add_comm]

lemma popVar_append_comm (a b : List ℚ) : popVar (a ++ b) = popVar (b ++ a) := by
  have hm := mean_append_comm a b
  simp only [popVar, List.map_append, hm]
  exact mean_append_comm _ _

lemma specMean_eq_mean (xs : List ℚ) : specMean xs = mean xs := rfl

lemma specVariance_eq_popVar (xs : List ℚ) : specVariance xs = popVar xs := by
  simp [specVariance, popVar, mean, specMean, List.length_map]

/-- The trailing window of the spec is the tail slice of the code. -/
lemma trailingWindow_eq_drop (xs : List CsvRow) :
    trailingWindow 4 xs = xs.drop (xs.length - 4) := by
  have h := List.rtake_eq_reverse_take_reverse (l := xs) (n := 4)
  rw [trailingWindow, ← h, List.rtake]

/-- The per-file slice of `_load_logs` agrees with the spec wording:
drop row 0 of the file, then keep the trailing window of up to 4 rows
(a file left empty after the drop contributes nothing either way). -/
lemma entryContribution_eq_spec (e : DirEntry) :
    entryContribution e =
      if e.isFile && decide (".csv".data <:+ e.name.data)
      then specFileWindow e.rows else [] := by
  rw [entryContribution, csvSuffixCheck_eq_suffix_decide]
  rcases h : (e.isFile && decide (".csv".data <:+ e.name.data)) with _ | _
  · simp [h]
  · simp only [h, if_true, specFileWindow]
    by_cases hz : (e.rows.drop 1).length = 0
    · rw [if_pos hz, List.length_eq_zero.mp hz]
      rfl
    · rw [if_neg hz, trailingWindow_eq_drop]
      congr 1
      omega

lemma specPooled_cons (e : DirEntry) (es : List DirEntry) :
    specPooled (e :: es) =
      (if e.isFile && decide (".csv".data <:+ e.name.data)
       then specFileWindow e.rows else []) ++ specPooled es := by
  by_cases h : (e.isFile && decide (".csv".data <:+ e.name.data)) = true
  · simp [specPooled, specMatchingFiles, List.filter_cons, h]
  · simp [specPooled, specMatchingFiles, List.filter_cons, h]

/-- The pooled accumulation of the code equals the pooled rows of the
spec wording. -/
lemma flatten_contribution_eq_specPooled (entries : List DirEntry) :
    (entries.map entryContribution).flatten = specPooled entries := by
  induction entries with
  | nil => rfl
  | cons e es ih =>
      rw [List.map_cons, List.flatten_cons, specPooled_cons,
          entryContribution_eq_spec, ih]

lemma FloatVal.le_rfl (a : FloatVal) : a.le a = true := by
  cases a <;> simp [FloatVal.le]

lemma FloatVal.le_of_lt_eq {a b : FloatVal} (h : a.lt b = true) : a.le b = true := by
  cases a <;> cases b <;> simp_all [FloatVal.lt, FloatVal.le]
  exact le_of_lt h

/-!  Claim theorems.  -/

/-- Claim C1 (code bug evidence).  At a step divisible by both
frequencies (`n_calls = 10000`, `logs_freq = 100`,
`evaluate_freq = 10000`) with a log directory yielding no data, the
hook returns early: it emits no events at all — in particular none of
the evaluation metrics — and leaves `best_mean_reward` untouched,
although `10000 mod 10000 = 0` demands the evaluation branch.  The
claim (both branches execute regardless of whether log aggregation
yielded data) is therefore violated by the early `return True` of
line 143. -/
theorem shared_step_no_data_skips_evaluation :
    (10000 % 100 = 0) ∧ (10000 % 10000 = 0) ∧
    loadLogs ([] : List DirEntry) = none ∧
    onStep ⟨10000, 100, 10000, "logs", FloatVal.negInf, false⟩ []
        [1, 2, 3, 4, 5] [9, 9, 9, 9, 9] =
      ⟨[], FloatVal.negInf, true⟩ :=
  ⟨rfl, rfl, rfl, rfl⟩

/-- Claim C2 (counterexample).  A directory with a single matching log
file holding exactly one data row does not yield the values of that row:
`_load_logs` first drops the first data row of the file, nothing remains,
and the aggregation reports no data instead of the claimed
`(5, 0, 7, 0)`. -/
theorem single_one_row_file_yields_no_data :
    loadLogs [⟨"monitor.csv", true, [⟨5, 7⟩]⟩] = none ∧
    loadLogs [⟨"monitor.csv", true, [⟨5, 7⟩]⟩] ≠ some ⟨5, 0, 7, 0⟩ :=
  ⟨rfl, fun h => Option.noConfusion (h.symm.trans rfl)⟩

/-- Claim C2 (amended).  For a log directory containing a single
matching log file with exactly two data rows — the first being the
warm-up row the aggregation drops — log aggregation returns the return
value of the second row as the mean reward and its length as the mean
length, with both standard deviations equal to 0. -/
theorem single_two_row_file_stats (r1 l1 r2 l2 : ℚ) :
    ∃ s, loadLogs [⟨"monitor.csv", true, [⟨r1, l1⟩, ⟨r2, l2⟩]⟩] = some s ∧
      s.mean_reward = r2 ∧ s.mean_length = l2 ∧
      s.std_reward = 0 ∧ s.std_length = 0 := by
  refine ⟨⟨mean [r2], popVar [r2], mean [l2], popVar [l2]⟩, rfl, ?_, ?_, ?_, ?_⟩
  · exact mean_singleton r2
  · exact mean_singleton l2
  · simp [LogStats.std_reward, popVar_singleton]
  · simp [LogStats.std_length, popVar_singleton]

/-- Claim C9.  The per-step hook returns the continue signal `true`
for every monitor state, directory content and evaluation outcome —
it never returns the stop signal, including in the no-data case. -/
theorem on_step_always_continues (st : MonitorState) (entries : List DirEntry)
    (er el : List ℚ) :
    (onStep st entries er el).res = true := by
  by_cases hl : st.n_calls % st.logs_freq = 0 <;>
  rcases hs : loadLogs entries with _ | s <;>
  by_cases he : st.n_calls % st.evaluate_freq = 0 <;>
  by_cases hlt : FloatVal.lt st.best_mean_reward (.fin (mean er)) = true <;>
  simp [onStep, hl, hs, he, hlt]

/-- Claim C5.  `best_mean_reward` is `-np.inf` right after construction
and never decreases across a call of the per-step hook: each call
either keeps it or replaces it by a strictly larger mean. -/
theorem best_mean_reward_init_and_monotone :
    (∀ lf ef ld mv, (mkMonitorState lf ef ld mv).best_mean_reward = FloatVal.negInf) ∧
    (∀ (st : MonitorState) (entries : List DirEntry) (er el : List ℚ),
        FloatVal.le st.best_mean_reward
          (onStep st entries er el).best_mean_reward = true) := by
  constructor
  · intro _ _ _ _
    rfl
  · intro st entries er el
    by_cases hl : st.n_calls % st.logs_freq = 0 <;>
    rcases hs : loadLogs entries with _ | s <;>
    by_cases he : st.n_calls % st.evaluate_freq = 0 <;>
    by_cases hlt : FloatVal.lt st.best_mean_reward (.fin (mean er)) = true <;>
    first
      | (simp [onStep, hl, hs, he, hlt, FloatVal.le_rfl]; done)
      | simpa [onStep, hl, hs, he, hlt] using FloatVal.le_of_lt_eq hlt

/-- Claim C6.  When zero (return, length) pairs are accumulated across
every matching file — in particular for a directory with no matching
files — `_load_logs` returns the distinguished no-data outcome `none`
rather than a numeric result, and a step hitting the logging frequency
with that outcome emits no training metrics. -/
theorem no_data_outcome_skips_training_metrics
    (st : MonitorState) (entries : List DirEntry) (er el : List ℚ)
    (hpairs : lastRewards entries = [])
    (hl : st.n_calls % st.logs_freq = 0) :
    loadLogs entries = none ∧
    (onStep st entries er el).events.countP Event.isTrainingMetric = 0 := by
  have hnone : loadLogs entries = none := by
    simp [loadLogs, hpairs]
  exact ⟨hnone, by simp [onStep, hl, hnone]⟩

/-- Witness for C6: a directory whose only entry is not a `.csv` file
accumulates zero pairs; at step 200 with `logs_freq = 100` the logging
trigger fires and no training metric is emitted. -/
theorem no_data_outcome_skips_training_metrics_witness :
    loadLogs [⟨"notes.txt", true, [⟨1, 1⟩]⟩] = none ∧
    (onStep ⟨200, 100, 10000, "logs", FloatVal.negInf, false⟩
        [⟨"notes.txt", true, [⟨1, 1⟩]⟩] [] []).events.countP
      Event.isTrainingMetric = 0 :=
  no_data_outcome_skips_training_metrics _ _ _ _ (by decide) (by decide)

/-- Claim C4.  On a step that reaches the evaluation branch, a strict
improvement of the evaluation mean reward over the running best
produces exactly one checkpoint write and sets the best to that mean,
while an equal or lower mean produces no write and no update. -/
theorem checkpoint_iff_strict_improvement
    (st : MonitorState) (entries : List DirEntry) (er el : List ℚ)
    (hev : st.n_calls % st.evaluate_freq = 0)
    (hlog : st.n_calls % st.logs_freq = 0 → loadLogs entries ≠ none) :
    (FloatVal.lt st.best_mean_reward (.fin (mean er)) = true →
        (onStep st entries er el).events.countP Event.isSaveModel = 1 ∧
        (onStep st entries er el).best_mean_reward = .fin (mean er)) ∧
    (FloatVal.lt st.best_mean_reward (.fin (mean er)) = false →
        (onStep st entries er el).events.countP Event.isSaveModel = 0 ∧
        (onStep st entries er el).best_mean_reward = st.best_mean_reward) := by
  by_cases hl : st.n_calls % st.logs_freq = 0
  · rcases hs : loadLogs entries with _ | s
    · exact absurd hs (hlog hl)
    · constructor <;> intro hlt <;>
        by_cases hv : st.make_video <;>
        simp [onStep, hl, hs, hev, hlt, hv, List.countP_append, List.countP_cons,
              List.countP_nil, trainingMetricEvents, Event.isSaveModel]
  · constructor <;> intro hlt <;>
      by_cases hv : st.make_video <;>
      simp [onStep, hl, hev, hlt, hv, List.countP_append, List.countP_cons,
            List.countP_nil, trainingMetricEvents, Event.isSaveModel]

/-- Witness for C4: at step 10000 (`evaluate_freq = 10000`,
`logs_freq = 3` so the logging trigger stays silent), a mean evaluation
reward of 3 strictly exceeds the initial `-inf` best, so exactly one
checkpoint write happens and the best becomes 3. -/
theorem checkpoint_iff_strict_improvement_witness :
    (onStep ⟨10000, 3, 10000, "logs", FloatVal.negInf, false⟩ []
        [1, 2, 3, 4, 5] [1, 1, 1, 1, 1]).events.countP Event.isSaveModel = 1 ∧
    (onStep ⟨10000, 3, 10000, "logs", FloatVal.negInf, false⟩ []
        [1, 2, 3, 4, 5] [1, 1, 1, 1, 1]).best_mean_reward
      = .fin (mean [1, 2, 3, 4, 5]) :=
  (checkpoint_iff_strict_improvement ⟨10000, 3, 10000, "logs", FloatVal.negInf, false⟩
      [] [1, 2, 3, 4, 5] [1, 1, 1, 1, 1] (by decide) (by decide)).1 rfl

/-- Claim C3.  `_load_logs` realises the spec wording of aggregation:
per matching file drop the first data row, keep the trailing window of
up to 4 remaining rows, pool across all matching files, and report the
arithmetic mean and population standard deviation of the pooled returns
and, separately, of the pooled lengths. -/
theorem load_logs_matches_spec_aggregation (entries : List DirEntry)
    (h : specPooled entries ≠ []) :
    ∃ s, loadLogs entries = some s ∧
      s.mean_reward = specMean ((specPooled entries).map CsvRow.r) ∧
      s.std_reward = specStd ((specPooled entries).map CsvRow.r) ∧
      s.mean_length = specMean ((specPooled entries).map CsvRow.l) ∧
      s.std_length = specStd ((specPooled entries).map CsvRow.l) := by
  have hp := flatten_contribution_eq_specPooled entries
  have hlr : lastRewards entries = (specPooled entries).map CsvRow.r := by
    rw [lastRewards, hp]
  have hle : lastEpLengths entries = (specPooled entries).map CsvRow.l := by
    rw [lastEpLengths, hp]
  have hne : ¬ (lastRewards entries).length = 0 := by
    rw [hlr, List.length_map, List.length_eq_zero]
    exact h
  refine ⟨⟨mean (lastRewards entries), popVar (lastRewards entries),
           mean (lastEpLengths entries), popVar (lastEpLengths entries)⟩,
          ?_, ?_, ?_, ?_, ?_⟩
  · simp only [loadLogs]
    rw [if_neg hne]
  · show mean (lastRewards entries) = specMean ((specPooled entries).map CsvRow.r)
    rw [specMean_eq_mean, hlr]
  · show Real.sqrt (popVar (lastRewards entries))
        = specStd ((specPooled entries).map CsvRow.r)
    rw [specStd, specVariance_eq_popVar, hlr]
  · show mean (lastEpLengths entries) = specMean ((specPooled entries).map CsvRow.l)
    rw [specMean_eq_mean, hle]
  · show Real.sqrt (popVar (lastEpLengths entries))
        = specStd ((specPooled entries).map CsvRow.l)
    rw [specStd, specVariance_eq_popVar, hle]

/-- Witness for C3: a directory with one matching file of two data rows
pools one row, so the aggregation result is present. -/
theorem load_logs_matches_spec_aggregation_witness :
    (loadLogs [⟨"m.csv", true, [⟨0, 0⟩, ⟨1, 2⟩]⟩]).isSome = true := by
  obtain ⟨s, hs, -, -, -, -⟩ :=
    load_logs_matches_spec_aggregation [⟨"m.csv", true, [⟨0, 0⟩, ⟨1, 2⟩]⟩] (by decide)
  rw [hs]
  rfl

lemma loadLogs_pair (x y : DirEntry) :
    loadLogs [x, y] =
      if ((entryContribution x ++ entryContribution y).map CsvRow.r).length = 0
      then none
      else some ⟨mean ((entryContribution x ++ entryContribution y).map CsvRow.r),
                 popVar ((entryContribution x ++ entryContribution y).map CsvRow.r),
                 mean ((entryContribution x ++ entryContribution y).map CsvRow.l),
                 popVar ((entryContribution x ++ entryContribution y).map CsvRow.l)⟩ := by
  have hflat : ([x, y].map entryContribution).flatten
      = entryContribution x ++ entryContribution y := by
    simp
  simp only [loadLogs, lastRewards, lastEpLengths, hflat]

/-- Claim C7.  For two contributing log files, the aggregation result
is the mean and population standard deviation of the full pooled
multiset across both files, and swapping the iteration order of the
files leaves the result unchanged. -/
theorem pooled_stats_order_invariant (e1 e2 : DirEntry)
    (h1 : entryContribution e1 ≠ []) (h2 : entryContribution e2 ≠ []) :
    (∃ s, loadLogs [e1, e2] = some s ∧
        s.mean_reward
          = mean ((entryContribution e1 ++ entryContribution e2).map CsvRow.r) ∧
        s.std_reward
          = npStd ((entryContribution e1 ++ entryContribution e2).map CsvRow.r) ∧
        s.mean_length
          = mean ((entryContribution e1 ++ entryContribution e2).map CsvRow.l) ∧
        s.std_length
          = npStd ((entryContribution e1 ++ entryContribution e2).map CsvRow.l)) ∧
    loadLogs [e2, e1] = loadLogs [e1, e2] := by
  obtain ⟨a, t, ht⟩ := List.exists_cons_of_ne_nil h1
  have hne1 : ¬ ((entryContribution e1 ++ entryContribution e2).map CsvRow.r).length = 0 := by
    simp [ht]
  have hne2 : ¬ ((entryContribution e2 ++ entryContribution e1).map CsvRow.r).length = 0 := by
    simp [ht]
  constructor
  · exact ⟨⟨mean ((entryContribution e1 ++ entryContribution e2).map CsvRow.r),
            popVar ((entryContribution e1 ++ entryContribution e2).map CsvRow.r),
            mean ((entryContribution e1 ++ entryContribution e2).map CsvRow.l),
            popVar ((entryContribution e1 ++ entryContribution e2).map CsvRow.l)⟩,
           by rw [loadLogs_pair, if_neg hne1], rfl, rfl, rfl, rfl⟩
  · rw [loadLogs_pair e2 e1, loadLogs_pair e1 e2, if_neg hne2, if_neg hne1]
    simp only [List.map_append]
    rw [mean_append_comm ((entryContribution e2).map CsvRow.r)
          ((entryContribution e1).map CsvRow.r),
        popVar_append_comm ((entryContribution e2).map CsvRow.r)
          ((entryContribution e1).map CsvRow.r),
        mean_append_comm ((entryContribution e2).map CsvRow.l)
          ((entryContribution e1).map CsvRow.l),
        popVar_append_comm ((entryContribution e2).map CsvRow.l)
          ((entryContribution e1).map CsvRow.l)]

/-- Witness for C7: two matching two-row files; the aggregation result
is invariant under swapping them. -/
theorem pooled_stats_order_invariant_witness :
    loadLogs [⟨"b.csv", true, [⟨0, 0⟩, ⟨3, 4⟩]⟩, ⟨"a.csv", true, [⟨0, 0⟩, ⟨1, 2⟩]⟩]
      = loadLogs [⟨"a.csv", true, [⟨0, 0⟩, ⟨1, 2⟩]⟩, ⟨"b.csv", true, [⟨0, 0⟩, ⟨3, 4⟩]⟩] :=
  (pooled_stats_order_invariant ⟨"a.csv", true, [⟨0, 0⟩, ⟨1, 2⟩]⟩
      ⟨"b.csv", true, [⟨0, 0⟩, ⟨3, 4⟩]⟩ (by decide) (by decide)).2

/-- Claim C8.  Whatever the outcome of the Model-Params upload —
including the raising `reduce` on an empty dict and a failing upload
call — initialisation never aborts there: the step contributes at most
one Model-Params text action, and the remaining steps (the
log-directory text, the optional comment, the conditional directory
creation) always execute afterwards. -/
theorem init_upload_failure_suppressed (cfg : InitConfig) (upload_fails : Bool) :
    ∃ hp : List InitAction,
      initCallback cfg upload_fails =
        initHeader cfg ++ hp ++
          ([.logText "Path to local files" cfg.log_dir] ++
           (match cfg.comment with
            | none => []
            | some c => [.logText "Comment" c]) ++
           (if cfg.log_dir_exists then [] else [.mkdirLogDir])) ∧
      (∀ a ∈ hp, ∃ t, a = .logText "Model Params" t) := by
  refine ⟨modelParamsUpload cfg upload_fails, rfl, ?_⟩
  intro a ha
  rcases hr : reduceJoin (paramItems cfg.model_parameter) with _ | t <;>
  rcases upload_fails with _ | _ <;>
  simp only [modelParamsUpload, hr] at ha <;>
  simp_all

/-- Claim C10.  With an empty hyperparameter dict — in particular the
default `None`, normalised to an empty dict by the constructor — the
`reduce` over zero rendered items raises, the swallowed exception means
the Model-Params text is never uploaded, and initialisation still
completes with every remaining step. -/
theorem empty_model_parameter_never_uploads (cfg : InitConfig)
    (upload_fails : Bool) (h : cfg.model_parameter = []) :
    normalizeModelParameter none = [] ∧
    reduceJoin (paramItems cfg.model_parameter) = none ∧
    (∀ t, InitAction.logText "Model Params" t ∉ initCallback cfg upload_fails) ∧
    initCallback cfg upload_fails = initHeader cfg ++ initTail cfg := by
  have hred : reduceJoin (paramItems cfg.model_parameter) = none := by
    rw [h]
    rfl
  have hup : modelParamsUpload cfg upload_fails = [] := by
    simp only [modelParamsUpload, hred]
  refine ⟨rfl, hred, ?_, ?_⟩
  · intro t hmem
    rw [initCallback, hup, List.append_nil] at hmem
    rcases List.mem_append.mp hmem with hin | hin
    · simp [initHeader] at hin
    · rw [initTail] at hin
      rcases List.mem_append.mp hin with hin2 | hin2
      · rcases List.mem_append.mp hin2 with hin3 | hin3
        · simp at hin3
        · rcases hc : cfg.comment with _ | c <;> rw [hc] at hin3 <;> simp at hin3
      · rcases hd : cfg.log_dir_exists with _ | _ <;> rw [hd] at hin2 <;> simp at hin2
  · rw [initCallback, hup, List.append_nil]

/-- Witness for C10: a concrete configuration with the (normalised)
empty hyperparameter dict; no Model-Params action appears and the
action list is exactly header plus tail. -/
theorem empty_model_parameter_never_uploads_witness :
    reduceJoin (paramItems ([] : List (String × String))) = none ∧
    initCallback ⟨"acc", "proj", "exp", "A2C", "CartPole-v1", none, [], none, "logs", false⟩ true
      = initHeader ⟨"acc", "proj", "exp", "A2C", "CartPole-v1", none, [], none, "logs", false⟩
        ++ initTail ⟨"acc", "proj", "exp", "A2C", "CartPole-v1", none, [], none, "logs", false⟩ :=
  ⟨(empty_model_parameter_never_uploads
      ⟨"acc", "proj", "exp", "A2C", "CartPole-v1", none, [], none, "logs", false⟩ true rfl).2.1,
   (empty_model_parameter_never_uploads
      ⟨"acc", "proj", "exp", "A2C", "CartPole-v1", none, [], none, "logs", false⟩ true rfl).2.2.2⟩
